import Mathlib

/-!
Verification of the SOC dashboard's data-generation core, its collectors'
error handling, its routing/callback fallbacks, and the bounded event buffer
described in the design document.

Conventions of the embedding:
- The Python `random` / `numpy.random` draws are modelled by an explicit
  random stream `rng : Nat → Nat`; the i-th loop iteration of
  `generate_threat_data` consumes the 14 draws `rng (14*i) .. rng (14*i+13)`
  in source order.  All claims quantify over the stream, so any concrete
  interleaving of the two Python generators is an instance.
- `datetime.now()` is an integer clock in minutes (`now : Int`);
  `timedelta(minutes=m)` is subtraction of `m`.  The source stores the
  formatted string `strftime('%Y-%m-%d %H:%M:%S')`, which is an
  order-preserving image of this integer clock.
- `random.choice` raises `IndexError` on an empty pool, so it is embedded as
  an `Option`-valued lookup; `numpy.random.choice(pool, p=...)` is likewise a
  pool lookup (the probability weights only shape the distribution and are
  irrelevant to every claim, which quantify over the stream).
- Latitude/longitude literals are scaled by 10^4 and stored as integers
  (40.7128 ↦ 407128) to keep the model in exact arithmetic.
- A Python method that may mutate `self` is embedded by explicit state
  passing: `generate_threat_data` returns the post-call generator next to
  its result, so the frame property is a statement about that component.
-/

namespace CTI

/-- One generated threat record (the dict literal built inside
`SOCDataGenerator.generate_threat_data`).  The Python key `type` is the Lean
field `threat_type` (`type` is reserved). -/
structure Threat where
  id : String
  threat_type : String
  source : String
  vector : String
  severity : String
  status : String
  time : Int
  location : String
  ip_address : String
  affected_systems : Nat
  detection_method : String
  confidence : Nat
  deriving Repr, DecidableEq, Inhabited

/-- The mock generator's category pools, as assigned in
`SOCDataGenerator.__init__` (visualization.py lines 17-37). -/
structure SOCDataGenerator where
  threat_types : List String
  threat_sources : List String
  attack_vectors : List String
  locations : List (String × Int × Int)
  status_options : List String
  severity_levels : List String
  deriving Repr, DecidableEq

/-- The concrete pools set by `SOCDataGenerator.__init__`. -/
def SOCDataGenerator.init : SOCDataGenerator where
  threat_types := ["Malware", "Phishing", "DDoS", "Ransomware", "Data Exfiltration",
    "SQL Injection", "Zero-Day Exploit", "APT", "Insider Threat", "Supply Chain Attack"]
  threat_sources := ["External", "Internal", "Unknown", "Nation State", "Cybercrime Group",
    "Hacktivist", "Malicious Insider", "Third Party"]
  attack_vectors := ["Email", "Web", "Network", "USB", "Social Engineering",
    "Cloud Services", "Remote Access", "IoT Devices"]
  locations := [("New York", 407128, -740060), ("London", 515074, -1278),
    ("Tokyo", 356762, 1396503), ("Sydney", -338688, 1512093),
    ("Moscow", 557558, 376173), ("Singapore", 13521, 1038198),
    ("Dubai", 252048, 552708), ("Paris", 488566, 23522),
    ("Berlin", 525200, 134050), ("Mumbai", 190760, 728777)]
  status_options := ["Active", "Investigating", "Mitigated", "Resolved", "Escalated"]
  severity_levels := ["Critical", "High", "Medium", "Low"]

/-- An explicit stream of raw random draws. -/
abbrev Rng := Nat → Nat

/-- `random.randint(a, b)`: uniform integer in `[a, b]`, here realized from
one raw draw `r` (total for `a ≤ b`, which holds at every call site). -/
def randint (a b r : Nat) : Nat := a + r % (b - a + 1)

/-- `random.choice(pool)` / `numpy.random.choice(pool, p=...)`: selects one
pool element from a raw draw; `none` models the `IndexError` raised on an
empty pool. -/
def choice (pool : List α) (r : Nat) : Option α := pool[r % pool.length]?

/-- The inline detection-method pool of `generate_threat_data` line 59. -/
def detection_methods : List String := ["SIEM", "IDS", "EDR", "User Report", "Threat Intel"]

/-- Decimal digits of `n`, most significant first (one digit for `n < 10`). -/
def natDigits (n : Nat) : List Char :=
  if _h : n < 10 then [Nat.digitChar n]
  else natDigits (n / 10) ++ [Nat.digitChar (n % 10)]
  decreasing_by exact Nat.div_lt_self (by omega) (by omega)

/-- Python's `f'{n:04d}'`: the decimal digits of `n`, left-padded with `'0'`
to a minimum width of 4. -/
def pad4 (n : Nat) : String :=
  String.mk (List.replicate (4 - (natDigits n).length) '0' ++ natDigits n)

/-- Body of loop iteration `i` of `generate_threat_data` (lines 44-62):
draws the backdated timestamp, the pool-indexed fields and the numeric
fields from the stream, in source order. -/
def genThreat (g : SOCDataGenerator) (now : Int) (rng : Rng) (i : Nat) : Option Threat :=
  let base := 14 * i
  let threat_time : Int := now - (randint 0 60 (rng base) : Nat)
  match choice g.severity_levels (rng (base + 1)), choice g.status_options (rng (base + 2)),
      choice g.threat_types (rng (base + 3)), choice g.threat_sources (rng (base + 4)),
      choice g.attack_vectors (rng (base + 5)), choice (g.locations.map Prod.fst) (rng (base + 6)),
      choice detection_methods (rng (base + 12)) with
  | some severity, some status, some ttype, some tsource, some tvector, some tlocation, some dm =>
    let o1 := randint 1 255 (rng (base + 7))
    let o2 := randint 1 255 (rng (base + 8))
    let o3 := randint 1 255 (rng (base + 9))
    let o4 := randint 1 255 (rng (base + 10))
    some { id := "THR-" ++ pad4 (i + 1)
           threat_type := ttype
           source := tsource
           vector := tvector
           severity := severity
           status := status
           time := threat_time
           location := tlocation
           ip_address := s!"{o1}.{o2}.{o3}.{o4}"
           affected_systems := randint 1 10 (rng (base + 11))
           detection_method := dm
           confidence := randint 60 100 (rng (base + 13)) }
  | _, _, _, _, _, _, _ => none

/-- The `for i in range(n_threats)` accumulation loop of
`generate_threat_data`: `threats.append(threat)` in iteration order. -/
def generate_loop (g : SOCDataGenerator) (now : Int) (rng : Rng) : Nat → Option (List Threat)
  | 0 => some []
  | n + 1 =>
    match generate_loop g now rng n, genThreat g now rng n with
    | some ts, some t => some (ts ++ [t])
    | _, _ => none

/-- `SOCDataGenerator.generate_threat_data` (lines 39-64): captures
`current_time` once, runs the loop, and returns the rows together with the
post-call generator state (the method never assigns to `self`). -/
def generate_threat_data (g : SOCDataGenerator) (now : Int) (rng : Rng) (n_threats : Nat) :
    Option (List Threat × SOCDataGenerator) :=
  match generate_loop g now rng n_threats with
  | some threats => some (threats, g)
  | none => none

/-- Modelled from the spec: the bounded event buffer of spec §3/§4.2.  The
buffer itself is not implemented under src/ (the spec documents it as the
common shape of the two application variants), so its operations are taken
from the spec's own words. -/
structure Buffer (α : Type) where
  capacity : Nat
  data : List α
  deriving Repr, DecidableEq

/-- Modelled from the spec: the buffer is created empty (§3 lifecycle). -/
def Buffer.empty {α : Type} (c : Nat) : Buffer α := ⟨c, []⟩

/-- Modelled from the spec: `append(event)` — if `len == capacity`, evict
index 0 (the oldest) before appending; otherwise append (§4.2). -/
def Buffer.append {α : Type} (b : Buffer α) (e : α) : Buffer α :=
  if b.data.length = b.capacity then ⟨b.capacity, b.data.drop 1 ++ [e]⟩
  else ⟨b.capacity, b.data ++ [e]⟩

/-- Modelled from the spec: `recent(k)` — up to `k` most-recently-appended
events in insertion order; all of them if `k > len`, none if `k ≤ 0` (§4.2). -/
def Buffer.recent {α : Type} (b : Buffer α) (k : Int) : List α :=
  if k ≤ 0 then [] else b.data.drop (b.data.length - k.toNat)

/-- A sequence of appends applied in order (the producer loop). -/
def Buffer.appendAll {α : Type} (b : Buffer α) (es : List α) : Buffer α :=
  es.foldl Buffer.append b

/-- The `try: acc.extend(call()) except: pass-after-logging` pattern shared by
both collector methods of `DataCollector`; `.error` models the wrapped call
raising, in which case the accumulator is returned unchanged. -/
def tryExtend {α : Type} (acc : List α) (call : Except String (List α)) : List α :=
  match call with
  | .ok items => acc ++ items
  | .error _ => acc

/-- `DataCollector.collect_threat_feeds` (data_collection.py lines 60-73).
The outcomes of `otx_client.get_pulses()` and `vt_client.get_reports()` are
parameters (they perform network I/O); `.error` models a raised exception.
The return type is `Except` so that "never raises" is the provable statement
that the result is always `.ok`. -/
def collect_threat_feeds {α : Type} (otx_pulses vt_reports : Except String (List α)) :
    Except String (List α) :=
  let threats : List α := []
  let threats := tryExtend threats otx_pulses
  let threats := tryExtend threats vt_reports
  .ok threats

/-- `DataCollector.monitor_social_media` (data_collection.py lines 75-93):
each optional client is `none` when unavailable or failed to initialize; the
guarded monitor-call outcomes are parameters wrapped in try/except. -/
def monitor_social_media {α : Type} (twitter_client reddit_client : Option Unit)
    (twitter_res reddit_res : Except String (List α)) : Except String (List α) :=
  let indicators : List α := []
  let indicators :=
    match twitter_client with
    | some _ => tryExtend indicators twitter_res
    | none => indicators
  let indicators :=
    match reddit_client with
    | some _ => tryExtend indicators reddit_res
    | none => indicators
  .ok indicators

/-- Spec-side characterization (§7): a collector contributes its items on
success and an empty result on failure. -/
def collectorResult {α : Type} (r : Except String (List α)) : List α :=
  match r with
  | .ok items => items
  | .error _ => []

/-- Spec-side characterization (§7 and design note on optional clients): an
absent optional client contributes zero results. -/
def optionalCollectorResult {α : Type} (c : Option Unit) (r : Except String (List α)) :
    List α :=
  match c with
  | some _ => collectorResult r
  | none => []

/-- A plotly figure reduced to its trace list; `go.Figure()` with no traces
added is the empty figure. -/
structure Figure where
  traces : List String
  deriving Repr, DecidableEq

/-- `go.Figure()`: the empty figure returned by the except-branches. -/
def goFigure : Figure := ⟨[]⟩

/-- The try-block body of `update_summary_cards` (visualization.py lines
164-169) over the generated rows: the pandas filters become list filters. -/
def summary_cards_body (df : List Threat) : String × String × String × String :=
  let active_threats := (df.filter (fun t => t.status == "Active")).length
  let risk_level :=
    if active_threats > 10 then "High" else if active_threats > 5 then "Medium" else "Low"
  let mitigated := (df.filter (fun t => t.status == "Mitigated")).length
  let alerts := (df.filter (fun t => t.severity == "Critical" || t.severity == "High")).length
  (toString active_threats, risk_level, toString mitigated, toString alerts)

/-- `update_summary_cards` (lines 155-172): `body` is the outcome of the
try-block (generation plus pandas evaluation); the except-branch returns the
four strings "N/A". -/
def update_summary_cards (body : Except String (String × String × String × String)) :
    String × String × String × String :=
  match body with
  | .ok cards => cards
  | .error _ => ("N/A", "N/A", "N/A", "N/A")

/-- `update_threat_map` (lines 174-226): `body` is the outcome of the
try-block (generation plus plotly figure construction); the except-branch
returns `go.Figure()`. -/
def update_threat_map (body : Except String Figure) : Figure :=
  match body with
  | .ok fig => fig
  | .error _ => goFigure

/-- `update_analytics_charts` (lines 401-421): the except-branch returns a
tuple of five `go.Figure()`. -/
def update_analytics_charts
    (body : Except String (Figure × Figure × Figure × Figure × Figure)) :
    Figure × Figure × Figure × Figure × Figure :=
  match body with
  | .ok figs => figs
  | .error _ => (goFigure, goFigure, goFigure, goFigure, goFigure)

/-- The pages built by the `_create_*_page` constructors. -/
inductive Page where
  | dashboard
  | analytics
  | reports
  | threatHunting
  | incidents
  | training
  | settings
  deriving Repr, DecidableEq

/-- The if/elif routing chain of `display_page` (lines 134-149): unknown
pathnames fall through to the dashboard page. -/
def route (pathname : String) : Page :=
  if pathname == "/dashboard" || pathname == "/" then .dashboard
  else if pathname == "/analytics" then .analytics
  else if pathname == "/reports" then .reports
  else if pathname == "/threat-hunting" then .threatHunting
  else if pathname == "/incidents" then .incidents
  else if pathname == "/training" then .training
  else if pathname == "/settings" then .settings
  else .dashboard

/-- What the routing callback hands back to Dash: a constructed page, or the
`html.Div("Error loading page")` fallback of the except-branch. -/
inductive Rendered where
  | page (p : Page)
  | errorLoadingPage
  deriving Repr, DecidableEq

/-- `display_page` (lines 128-152): `create` is the page-construction
collaborator (`self._create_*_page`); if it raises, the except-branch
returns the error div. -/
def display_page (create : Page → Except String Rendered) (pathname : String) : Rendered :=
  match create (route pathname) with
  | .ok r => r
  | .error _ => .errorLoadingPage

/-- The single event produced by `generate_threat_data` at clock 0 from the
all-zero random stream (a concrete earlier generation). -/
def c2_event_early : Threat :=
  { id := "THR-0001", threat_type := "Malware", source := "External", vector := "Email",
    severity := "Critical", status := "Active", time := 0, location := "New York",
    ip_address := "1.1.1.1", affected_systems := 1, detection_method := "SIEM",
    confidence := 60 }

/-- The single event produced by `generate_threat_data` at clock 5 from the
all-sixty random stream (a concrete later generation, backdated by 60
minutes). -/
def c2_event_late : Threat :=
  { id := "THR-0001", threat_type := "Malware", source := "Cybercrime Group",
    vector := "Social Engineering", severity := "Critical", status := "Active",
    time := -55, location := "New York", ip_address := "61.61.61.61",
    affected_systems := 1, detection_method := "SIEM", confidence := 79 }

/-- Unfolding equation of `natDigits` for one-digit numbers. -/
theorem natDigits_lt {n : Nat} (h : n < 10) : natDigits n = [Nat.digitChar n] := by
  rw [natDigits]; exact dif_pos h

/-- Unfolding equation of `natDigits` for multi-digit numbers. -/
theorem natDigits_ge {n : Nat} (h : ¬ n < 10) :
    natDigits n = natDigits (n / 10) ++ [Nat.digitChar (n % 10)] := by
  rw [natDigits]; exact dif_neg h

theorem natDigits_ne_nil (n : Nat) : natDigits n ≠ [] := by
  by_cases h : n < 10
  · rw [natDigits_lt h]; simp
  · rw [natDigits_ge h]; simp

theorem digitChar_injOn : ∀ a < 10, ∀ b < 10, Nat.digitChar a = Nat.digitChar b → a = b := by
  decide

theorem digitChar_ne_zero_char : ∀ a < 10, 0 < a → Nat.digitChar a ≠ '0' := by
  decide

/-- A positive number's decimal digits never start with a leading zero. -/
theorem natDigits_head_ne_zero : ∀ n : Nat, 0 < n → (natDigits n).head? ≠ some '0' := by
  intro n
  induction n using Nat.strong_induction_on with
  | _ n ih =>
    intro hn hcontra
    by_cases h10 : n < 10
    · rw [natDigits_lt h10] at hcontra
      simp at hcontra
      exact digitChar_ne_zero_char n h10 hn hcontra
    · rw [natDigits_ge h10] at hcontra
      obtain ⟨a, t, hat⟩ := List.exists_cons_of_ne_nil (natDigits_ne_nil (n / 10))
      rw [hat] at hcontra
      simp at hcontra
      have hpos : 0 < n / 10 := Nat.div_pos (by omega) (by omega)
      apply ih (n / 10) (Nat.div_lt_self (by omega) (by omega)) hpos
      rw [hat]
      simp [hcontra]

/-- Decimal printing is injective. -/
theorem natDigits_inj : ∀ a b : Nat, natDigits a = natDigits b → a = b := by
  intro a
  induction a using Nat.strong_induction_on with
  | _ a ih =>
    intro b h
    by_cases ha : a < 10 <;> by_cases hb : b < 10
    · rw [natDigits_lt ha, natDigits_lt hb] at h
      simp at h
      exact digitChar_injOn a ha b hb h
    · exfalso
      rw [natDigits_lt ha, natDigits_ge hb] at h
      have hlen := congrArg List.length h
      have hpos : 0 < (natDigits (b / 10)).length :=
        List.length_pos.2 (natDigits_ne_nil (b / 10))
      simp only [List.length_append, List.length_singleton] at hlen
      omega
    · exfalso
      rw [natDigits_ge ha, natDigits_lt hb] at h
      have hlen := congrArg List.length h
      have hpos : 0 < (natDigits (a / 10)).length :=
        List.length_pos.2 (natDigits_ne_nil (a / 10))
      simp only [List.length_append, List.length_singleton] at hlen
      omega
    · rw [natDigits_ge ha, natDigits_ge hb] at h
      obtain ⟨h3, h4⟩ := List.append_inj' h (by simp)
      have h5 : a / 10 = b / 10 :=
        ih (a / 10) (Nat.div_lt_self (by omega) (by omega)) (b / 10) h3
      simp at h4
      have h6 : a % 10 = b % 10 :=
        digitChar_injOn _ (Nat.mod_lt _ (by omega)) _ (Nat.mod_lt _ (by omega)) h4
      omega

/-- If two zero-padded digit strings agree but the first carries strictly
more padding, the second's digits start with `'0'`. -/
theorem head_zero_of_replicate_append {p q : Nat} {x y : List Char}
    (hpq : q < p) (h : List.replicate p '0' ++ x = List.replicate q '0' ++ y) :
    y.head? = some '0' := by
  have hdrop := congrArg (List.drop q) h
  rw [List.drop_append_of_le_length (by simp; omega),
      List.drop_append_of_le_length (by simp),
      List.drop_replicate, List.drop_replicate, Nat.sub_self] at hdrop
  simp at hdrop
  obtain ⟨k, hk⟩ : ∃ k, p - q = k + 1 := ⟨p - q - 1, by omega⟩
  rw [hk, List.replicate_succ] at hdrop
  rw [← hdrop]
  simp

/-- `f'{n:04d}'` is injective on positive numbers. -/
theorem pad4_inj {a b : Nat} (ha : 0 < a) (hb : 0 < b) (h : pad4 a = pad4 b) : a = b := by
  have hd : List.replicate (4 - (natDigits a).length) '0' ++ natDigits a
      = List.replicate (4 - (natDigits b).length) '0' ++ natDigits b :=
    congrArg String.data h
  have hlab : (natDigits a).length = (natDigits b).length := by
    rcases Nat.lt_trichotomy (natDigits a).length (natDigits b).length with hlt | heq | hgt
    · exfalso
      have hlen := congrArg List.length hd
      simp [List.length_append] at hlen
      have hq : 4 - (natDigits b).length < 4 - (natDigits a).length := by omega
      exact natDigits_head_ne_zero b hb (head_zero_of_replicate_append hq hd)
    · exact heq
    · exfalso
      have hlen := congrArg List.length hd
      simp [List.length_append] at hlen
      have hq : 4 - (natDigits a).length < 4 - (natDigits b).length := by omega
      exact natDigits_head_ne_zero a ha (head_zero_of_replicate_append hq hd.symm)
  rw [hlab] at hd
  exact natDigits_inj a b ((List.append_inj' hd (by rw [hlab])).2)

theorem choice_mem {pool : List α} {r : Nat} {x : α} (h : choice pool r = some x) : x ∈ pool :=
  List.getElem?_mem h

theorem choice_eq_some_of_ne_nil (pool : List α) (hp : pool ≠ []) (r : Nat) :
    ∃ x, choice pool r = some x := by
  have hlen : 0 < pool.length := List.length_pos.2 hp
  have hlt : r % pool.length < pool.length := Nat.mod_lt _ hlen
  exact ⟨pool[r % pool.length], by simp [choice]⟩

/-- Every field of a produced threat record, characterized from the draws
that built it. -/
theorem genThreat_fields {g : SOCDataGenerator} {now : Int} {rng : Rng} {i : Nat} {t : Threat}
    (h : genThreat g now rng i = some t) :
    t.severity ∈ g.severity_levels ∧ t.status ∈ g.status_options ∧
    t.threat_type ∈ g.threat_types ∧ t.source ∈ g.threat_sources ∧
    t.vector ∈ g.attack_vectors ∧ t.location ∈ g.locations.map Prod.fst ∧
    t.detection_method ∈ detection_methods ∧
    t.id = "THR-" ++ pad4 (i + 1) ∧
    t.time = now - (randint 0 60 (rng (14 * i)) : Nat) := by
  unfold genThreat at h
  dsimp only at h
  split at h
  next severity status ttype tsource tvector tlocation dm hsev hst hty hsrc hvec hloc hdm =>
    obtain rfl := Option.some.inj h
    exact ⟨choice_mem hsev, choice_mem hst, choice_mem hty, choice_mem hsrc,
      choice_mem hvec, choice_mem hloc, choice_mem hdm, rfl, rfl⟩
  next => exact absurd h (by simp)

/-- Each produced event is timestamped inside the hour preceding the call's
clock reading. -/
theorem genThreat_time_range {g : SOCDataGenerator} {now : Int} {rng : Rng} {i : Nat}
    {t : Threat} (h : genThreat g now rng i = some t) :
    now - 60 ≤ t.time ∧ t.time ≤ now := by
  have htime := (genThreat_fields h).2.2.2.2.2.2.2.2
  have hr : randint 0 60 (rng (14 * i)) ≤ 60 := by unfold randint; omega
  omega

/-- With the constructor's pools every iteration succeeds: each pool is
non-empty, so no `random.choice` can raise. -/
theorem genThreat_init_some (now : Int) (rng : Rng) (i : Nat) :
    ∃ t, genThreat SOCDataGenerator.init now rng i = some t := by
  obtain ⟨x1, h1⟩ := choice_eq_some_of_ne_nil SOCDataGenerator.init.severity_levels
    (by simp [SOCDataGenerator.init]) (rng (14 * i + 1))
  obtain ⟨x2, h2⟩ := choice_eq_some_of_ne_nil SOCDataGenerator.init.status_options
    (by simp [SOCDataGenerator.init]) (rng (14 * i + 2))
  obtain ⟨x3, h3⟩ := choice_eq_some_of_ne_nil SOCDataGenerator.init.threat_types
    (by simp [SOCDataGenerator.init]) (rng (14 * i + 3))
  obtain ⟨x4, h4⟩ := choice_eq_some_of_ne_nil SOCDataGenerator.init.threat_sources
    (by simp [SOCDataGenerator.init]) (rng (14 * i + 4))
  obtain ⟨x5, h5⟩ := choice_eq_some_of_ne_nil SOCDataGenerator.init.attack_vectors
    (by simp [SOCDataGenerator.init]) (rng (14 * i + 5))
  obtain ⟨x6, h6⟩ := choice_eq_some_of_ne_nil (SOCDataGenerator.init.locations.map Prod.fst)
    (by simp [SOCDataGenerator.init]) (rng (14 * i + 6))
  obtain ⟨x7, h7⟩ := choice_eq_some_of_ne_nil detection_methods
    (by simp [detection_methods]) (rng (14 * i + 12))
  unfold genThreat
  dsimp only
  rw [h1, h2, h3, h4, h5, h6, h7]
  exact ⟨_, rfl⟩

theorem generate_loop_length {g : SOCDataGenerator} {now : Int} {rng : Rng} :
    ∀ {n : Nat} {ts : List Threat}, generate_loop g now rng n = some ts → ts.length = n := by
  intro n
  induction n with
  | zero => intro ts h; obtain rfl := Option.some.inj h.symm; rfl
  | succ n ih =>
    intro ts h
    rw [generate_loop] at h
    split at h
    next ts' t' hts' ht' =>
      obtain rfl := Option.some.inj h
      simp [ih hts']
    next => exact absurd h (by simp)

/-- Every element of a successful run of the loop comes from a successful
iteration. -/
theorem generate_loop_forall {g : SOCDataGenerator} {now : Int} {rng : Rng}
    (P : Nat → Threat → Prop)
    (hP : ∀ i t, genThreat g now rng i = some t → P i t) :
    ∀ {n : Nat} {ts : List Threat}, generate_loop g now rng n = some ts →
      ∀ t ∈ ts, ∃ i, i < n ∧ P i t := by
  intro n
  induction n with
  | zero =>
    intro ts h t ht
    obtain rfl := Option.some.inj h.symm
    simp at ht
  | succ n ih =>
    intro ts h t ht
    rw [generate_loop] at h
    split at h
    next ts' t' hts' ht' =>
      obtain rfl := Option.some.inj h
      rcases List.mem_append.1 ht with hmem | hmem
      · obtain ⟨i, hi, hp⟩ := ih hts' t hmem
        exact ⟨i, by omega, hp⟩
      · obtain rfl := List.mem_singleton.1 hmem
        exact ⟨n, by omega, hP n t ht'⟩
    next => exact absurd h (by simp)

/-- The id column of a successful run is `THR-0001, THR-0002, …` in
iteration order. -/
theorem generate_loop_ids {g : SOCDataGenerator} {now : Int} {rng : Rng} :
    ∀ {n : Nat} {ts : List Threat}, generate_loop g now rng n = some ts →
      ts.map Threat.id = (List.range n).map (fun j => "THR-" ++ pad4 (j + 1)) := by
  intro n
  induction n with
  | zero => intro ts h; obtain rfl := Option.some.inj h.symm; rfl
  | succ n ih =>
    intro ts h
    rw [generate_loop] at h
    split at h
    next ts' t' hts' ht' =>
      obtain rfl := Option.some.inj h
      rw [List.map_append, ih hts', List.range_succ, List.map_append]
      simp [(genThreat_fields ht').2.2.2.2.2.2.2.1]
    next => exact absurd h (by simp)

theorem generate_loop_init_some (now : Int) (rng : Rng) :
    ∀ n : Nat, ∃ ts, generate_loop SOCDataGenerator.init now rng n = some ts := by
  intro n
  induction n with
  | zero => exact ⟨[], rfl⟩
  | succ n ih =>
    obtain ⟨ts, hts⟩ := ih
    obtain ⟨t, ht⟩ := genThreat_init_some now rng n
    exact ⟨ts ++ [t], by rw [generate_loop, hts, ht]⟩

/-- A successful `generate_threat_data` call timestamps every returned event
inside the hour preceding its clock reading. -/
theorem generate_time_window {g : SOCDataGenerator} {now : Int} {rng : Rng} {n : Nat}
    {ts : List Threat} {g' : SOCDataGenerator}
    (h : generate_threat_data g now rng n = some (ts, g')) :
    ∀ t ∈ ts, now - 60 ≤ t.time ∧ t.time ≤ now := by
  unfold generate_threat_data at h
  split at h
  next threats hloop =>
    obtain ⟨rfl, rfl⟩ := Prod.mk.injEq .. ▸ Option.some.inj h
    intro t ht
    obtain ⟨i, _, hp⟩ := generate_loop_forall
      (fun _ t => now - 60 ≤ t.time ∧ t.time ≤ now)
      (fun _ t hgen => genThreat_time_range hgen) hloop t ht
    exact hp
  next => exact absurd h (by simp)

/-- Claim C1: for every integer `n ≥ 0`, `SOCDataGenerator.generate_threat_data n`
succeeds (never raises) and returns exactly `n` events, each of whose `type`,
`source`, `vector`, `severity`, `status`, `location` and `detection_method`
fields is drawn from the corresponding fixed category pool (the
constructor's pools; the detection-method pool is the fixed inline literal of
the generating loop). -/
theorem C1_generate_total_and_fields_from_pools (now : Int) (rng : Rng) (n : Nat) :
    ∃ ts,
      generate_threat_data SOCDataGenerator.init now rng n = some (ts, SOCDataGenerator.init) ∧
      ts.length = n ∧
      ∀ t ∈ ts,
        t.threat_type ∈ SOCDataGenerator.init.threat_types ∧
        t.source ∈ SOCDataGenerator.init.threat_sources ∧
        t.vector ∈ SOCDataGenerator.init.attack_vectors ∧
        t.severity ∈ SOCDataGenerator.init.severity_levels ∧
        t.status ∈ SOCDataGenerator.init.status_options ∧
        t.location ∈ SOCDataGenerator.init.locations.map Prod.fst ∧
        t.detection_method ∈ detection_methods := by
  obtain ⟨ts, hts⟩ := generate_loop_init_some now rng n
  refine ⟨ts, by simp [generate_threat_data, hts], generate_loop_length hts, ?_⟩
  intro t ht
  obtain ⟨i, _, hp⟩ := generate_loop_forall
    (fun _ t =>
      t.threat_type ∈ SOCDataGenerator.init.threat_types ∧
      t.source ∈ SOCDataGenerator.init.threat_sources ∧
      t.vector ∈ SOCDataGenerator.init.attack_vectors ∧
      t.severity ∈ SOCDataGenerator.init.severity_levels ∧
      t.status ∈ SOCDataGenerator.init.status_options ∧
      t.location ∈ SOCDataGenerator.init.locations.map Prod.fst ∧
      t.detection_method ∈ detection_methods)
    (fun _ t hgen =>
      let f := genThreat_fields hgen
      ⟨f.2.2.1, f.2.2.2.1, f.2.2.2.2.1, f.1, f.2.1, f.2.2.2.2.2.1, f.2.2.2.2.2.2.1⟩)
    hts t ht
  exact hp

theorem C1_witness :
    ∃ ts,
      generate_threat_data SOCDataGenerator.init 0 (fun k => k) 2
        = some (ts, SOCDataGenerator.init) ∧ ts.length = 2 := by
  obtain ⟨ts, h1, h2, _⟩ := C1_generate_total_and_fields_from_pools 0 (fun k => k) 2
  exact ⟨ts, h1, h2⟩

/-- Claim C2, counterexample: two successive generations from the same
source with a non-decreasing clock (0, then 5) produce a later event whose
timestamp (-55) is strictly below the earlier event's timestamp (0), because
each event is backdated by `random.randint(0, 60)` minutes.  The claimed
monotonic non-decreasing timestamps therefore fail on the code. -/
theorem C2_counterexample :
    (0 : Int) ≤ 5 ∧
    generate_threat_data SOCDataGenerator.init 0 (fun _ => 0) 1
      = some ([c2_event_early], SOCDataGenerator.init) ∧
    generate_threat_data SOCDataGenerator.init 5 (fun _ => 60) 1
      = some ([c2_event_late], SOCDataGenerator.init) ∧
    c2_event_late.time < c2_event_early.time := by
  refine ⟨by norm_num, ?_, ?_, by norm_num [c2_event_early, c2_event_late]⟩
  · simp [generate_threat_data, generate_loop, genThreat, choice, randint, pad4, natDigits,
      SOCDataGenerator.init, detection_methods, c2_event_early]
    exact ⟨by decide, by decide⟩
  · simp [generate_threat_data, generate_loop, genThreat, choice, randint, pad4, natDigits,
      SOCDataGenerator.init, detection_methods, c2_event_late]
    exact ⟨by decide, by decide⟩

/-- Claim C2 (amended): every event is timestamped within the 60 minutes
preceding its generation call's clock reading, so across successive
generations from the same source with a non-decreasing clock a
later-generated event's timestamp is no more than 60 minutes below any
earlier-generated event's timestamp; monotonic non-decreasing order itself
does not hold. -/
theorem C2_amended_timestamps_within_window {g : SOCDataGenerator} {now₁ now₂ : Int}
    {rng₁ rng₂ : Rng} {n₁ n₂ : Nat} {ts₁ ts₂ : List Threat} {g₁ g₂ : SOCDataGenerator}
    (hclock : now₁ ≤ now₂)
    (h₁ : generate_threat_data g now₁ rng₁ n₁ = some (ts₁, g₁))
    (h₂ : generate_threat_data g now₂ rng₂ n₂ = some (ts₂, g₂)) :
    ∀ e₁ ∈ ts₁, ∀ e₂ ∈ ts₂,
      now₂ - 60 ≤ e₂.time ∧ e₂.time ≤ now₂ ∧ e₁.time - 60 ≤ e₂.time := by
  intro e₁ he₁ e₂ he₂
  have w₁ := generate_time_window h₁ e₁ he₁
  have w₂ := generate_time_window h₂ e₂ he₂
  exact ⟨w₂.1, w₂.2, by omega⟩

theorem C2_amended_witness :
    (0 : Int) ≤ 5 ∧
    (5 : Int) - 60 ≤ c2_event_late.time ∧ c2_event_late.time ≤ 5 ∧
    c2_event_early.time - 60 ≤ c2_event_late.time := by
  have h₁ : generate_threat_data SOCDataGenerator.init 0 (fun _ => 0) 1
      = some ([c2_event_early], SOCDataGenerator.init) := by
    simp [generate_threat_data, generate_loop, genThreat, choice, randint, pad4, natDigits,
      SOCDataGenerator.init, detection_methods, c2_event_early]
    exact ⟨by decide, by decide⟩
  have h₂ : generate_threat_data SOCDataGenerator.init 5 (fun _ => 60) 1
      = some ([c2_event_late], SOCDataGenerator.init) := by
    simp [generate_threat_data, generate_loop, genThreat, choice, randint, pad4, natDigits,
      SOCDataGenerator.init, detection_methods, c2_event_late]
    exact ⟨by decide, by decide⟩
  exact ⟨by norm_num,
    C2_amended_timestamps_within_window (by norm_num) h₁ h₂
      c2_event_early (by simp) c2_event_late (by simp)⟩

/-- Claim C6: `generate_threat_data` leaves every field of the generator
instance (threat_types, threat_sources, attack_vectors, locations,
status_options, severity_levels) unchanged — the post-call state it returns
is the pre-call state. -/
theorem C6_generator_state_unchanged (g : SOCDataGenerator) (now : Int) (rng : Rng) (n : Nat) :
    (generate_threat_data g now rng n).elim True (fun p =>
      p.2.threat_types = g.threat_types ∧
      p.2.threat_sources = g.threat_sources ∧
      p.2.attack_vectors = g.attack_vectors ∧
      p.2.locations = g.locations ∧
      p.2.status_options = g.status_options ∧
      p.2.severity_levels = g.severity_levels ∧
      p.2 = g) := by
  unfold generate_threat_data
  split
  · exact ⟨rfl, rfl, rfl, rfl, rfl, rfl, rfl⟩
  · trivial

/-- Claim C10: within a single call the generated ids are `THR-` followed by
`i+1` zero-padded to four digits, in iteration order, and are pairwise
distinct. -/
theorem C10_ids_sequential_and_distinct (now : Int) (rng : Rng) (n : Nat) :
    ∃ ts,
      generate_threat_data SOCDataGenerator.init now rng n = some (ts, SOCDataGenerator.init) ∧
      ts.map Threat.id = (List.range n).map (fun i => "THR-" ++ pad4 (i + 1)) ∧
      (ts.map Threat.id).Nodup := by
  obtain ⟨ts, hts⟩ := generate_loop_init_some now rng n
  have hids := generate_loop_ids hts
  refine ⟨ts, by simp [generate_threat_data, hts], hids, ?_⟩
  rw [hids]
  refine List.Nodup.map_on ?_ (List.nodup_range n)
  intro x hx y hy hxy
  have hd := congrArg String.data hxy
  simp only [String.data_append, List.append_cancel_left_eq] at hd
  have hpad : pad4 (x + 1) = pad4 (y + 1) := congrArg String.mk hd
  have := pad4_inj (by omega) (by omega) hpad
  omega

/-- Claim C3: `collect_threat_feeds` and `monitor_social_media` never raise;
a raising or absent upstream client is caught at the call site and
contributes an empty result, while the remaining collectors' results are
still returned. -/
theorem C3_collectors_never_raise_and_degrade {α : Type}
    (otx_pulses vt_reports : Except String (List α))
    (twitter_client reddit_client : Option Unit)
    (twitter_res reddit_res : Except String (List α)) :
    collect_threat_feeds otx_pulses vt_reports
      = .ok (collectorResult otx_pulses ++ collectorResult vt_reports) ∧
    monitor_social_media twitter_client reddit_client twitter_res reddit_res
      = .ok (optionalCollectorResult twitter_client twitter_res
          ++ optionalCollectorResult reddit_client reddit_res) := by
  constructor
  · cases otx_pulses <;> cases vt_reports <;>
      simp [collect_threat_feeds, tryExtend, collectorResult]
  · cases twitter_client <;> cases reddit_client <;>
      cases twitter_res <;> cases reddit_res <;>
        simp [monitor_social_media, tryExtend, collectorResult, optionalCollectorResult]

/-- Claim C8: the timer-driven callbacks catch every exception of their
try-blocks and return fallback values instead of propagating:
`update_summary_cards` returns the four strings "N/A" and the figure
callbacks return empty figures; on success the computed value is returned
unchanged. -/
theorem C8_callbacks_catch_and_fallback
    (cards_body : Except String (String × String × String × String))
    (map_body : Except String Figure)
    (analytics_body : Except String (Figure × Figure × Figure × Figure × Figure)) :
    (∀ e, cards_body = .error e →
      update_summary_cards cards_body = ("N/A", "N/A", "N/A", "N/A")) ∧
    (∀ v, cards_body = .ok v → update_summary_cards cards_body = v) ∧
    (∀ e, map_body = .error e → update_threat_map map_body = goFigure) ∧
    (∀ f, map_body = .ok f → update_threat_map map_body = f) ∧
    (∀ e, analytics_body = .error e →
      update_analytics_charts analytics_body
        = (goFigure, goFigure, goFigure, goFigure, goFigure)) ∧
    (∀ v, analytics_body = .ok v → update_analytics_charts analytics_body = v) := by
  refine ⟨?_, ?_, ?_, ?_, ?_, ?_⟩ <;> intro x hx <;> rw [hx] <;> rfl

theorem C8_witness :
    update_summary_cards (.error "generation failed") = ("N/A", "N/A", "N/A", "N/A") ∧
    update_threat_map (.error "generation failed") = goFigure ∧
    update_analytics_charts (.error "generation failed")
      = (goFigure, goFigure, goFigure, goFigure, goFigure) := by
  obtain ⟨h1, _, h3, _, h5, _⟩ := C8_callbacks_catch_and_fallback
    (.error "generation failed") (.error "generation failed") (.error "generation failed")
  exact ⟨h1 _ rfl, h3 _ rfl, h5 _ rfl⟩

/-- Claim C9: `display_page` routes "/" and "/dashboard" to the dashboard
page, each of the six other listed routes to its matching page, every other
pathname to the dashboard page, and returns the "Error loading page" element
when page construction raises. -/
theorem C9_display_page_routing (create : Page → Except String Rendered) (pathname : String) :
    route "/" = .dashboard ∧ route "/dashboard" = .dashboard ∧
    route "/analytics" = .analytics ∧ route "/reports" = .reports ∧
    route "/threat-hunting" = .threatHunting ∧ route "/incidents" = .incidents ∧
    route "/training" = .training ∧ route "/settings" = .settings ∧
    (pathname ∉ ["/", "/dashboard", "/analytics", "/reports", "/threat-hunting",
        "/incidents", "/training", "/settings"] → route pathname = .dashboard) ∧
    (∀ r, create (route pathname) = .ok r → display_page create pathname = r) ∧
    (∀ e, create (route pathname) = .error e →
      display_page create pathname = .errorLoadingPage) := by
  refine ⟨rfl, rfl, rfl, rfl, rfl, rfl, rfl, rfl, ?_, ?_, ?_⟩
  · intro hnot
    simp only [List.mem_cons, List.not_mem_nil, or_false, not_or] at hnot
    obtain ⟨hroot, hdash, hana, hrep, hth, hinc, htr, hset⟩ := hnot
    unfold route
    rw [if_neg (by simp [hdash, hroot]), if_neg (by simp [hana]), if_neg (by simp [hrep]),
      if_neg (by simp [hth]), if_neg (by simp [hinc]), if_neg (by simp [htr]),
      if_neg (by simp [hset])]
  · intro r hr
    unfold display_page
    rw [hr]
  · intro e he
    unfold display_page
    rw [he]

theorem C9_witness :
    display_page (fun p => .ok (.page p)) "/analytics" = .page .analytics ∧
    display_page (fun _ => .error "construction failed") "/" = .errorLoadingPage ∧
    route "/no-such-route" = .dashboard := by
  obtain ⟨_, _, _, _, _, _, _, _, _, hok, _⟩ :=
    C9_display_page_routing (fun p => Except.ok (Rendered.page p)) "/analytics"
  obtain ⟨_, _, _, _, _, _, _, _, _, _, herr⟩ :=
    C9_display_page_routing (fun _ => Except.error "construction failed") "/"
  obtain ⟨_, _, _, _, _, _, _, _, hunk, _, _⟩ :=
    C9_display_page_routing (fun p => Except.ok (Rendered.page p)) "/no-such-route"
  exact ⟨hok _ rfl, herr _ rfl, hunk (by decide)⟩

theorem Buffer.append_capacity {α : Type} (b : Buffer α) (e : α) :
    (b.append e).capacity = b.capacity := by
  unfold Buffer.append
  split <;> rfl

theorem Buffer.appendAll_cons {α : Type} (b : Buffer α) (e : α) (es : List α) :
    Buffer.appendAll b (e :: es) = Buffer.appendAll (b.append e) es := rfl

/-- After any run of appends starting from a within-capacity state, the
buffer holds exactly the within-capacity tail of everything ever inserted,
in insertion order. -/
theorem Buffer.appendAll_data {α : Type} {c : Nat} (hc : 0 < c) :
    ∀ (es l : List α), l.length ≤ c →
      (Buffer.appendAll ⟨c, l⟩ es).data = (l ++ es).drop (l.length + es.length - c) := by
  intro es
  induction es with
  | nil =>
    intro l hl
    have h0 : l.length + List.length ([] : List α) - c = 0 := by simp; omega
    rw [h0, List.append_nil, List.drop_zero]
    rfl
  | cons e es ih =>
    intro l hl
    rw [Buffer.appendAll_cons]
    by_cases hfull : l.length = c
    · rw [show Buffer.append ⟨c, l⟩ e = ⟨c, l.drop 1 ++ [e]⟩ from by
        simp [Buffer.append, hfull]]
      rw [ih (l.drop 1 ++ [e]) (by simp; omega)]
      have h1 : (l.drop 1 ++ [e]).length + es.length - c = es.length := by simp; omega
      have h2 : l.length + (e :: es).length - c = es.length + 1 := by simp; omega
      rw [h1, h2]
      have hrw : (l.drop 1 ++ [e]) ++ es = (l ++ e :: es).drop 1 := by
        rw [List.drop_append_of_le_length (by omega)]
        simp
      rw [hrw, List.drop_drop]
      congr 1
      omega
    · rw [show Buffer.append ⟨c, l⟩ e = ⟨c, l ++ [e]⟩ from by
        simp [Buffer.append, hfull]]
      rw [ih (l ++ [e]) (by simp; omega)]
      have h3 : (l ++ [e]).length + es.length - c = l.length + (e :: es).length - c := by
        simp; omega
      rw [h3, List.append_assoc]
      rfl

/-- Claim C4 (modelled from the spec): the bounded buffer keeps
`len ≤ capacity` after every sequence of appends, append never fails and
evicts index 0 exactly when full, and `N > C` appends leave exactly the last
`C` appended events in insertion order. -/
theorem C4_buffer_bounded_fifo {α : Type} (C : Nat) (es : List α)
    (hC : 0 < C) (hN : C < es.length) :
    (∀ es' : List α, ((Buffer.empty C : Buffer α).appendAll es').data.length ≤ C) ∧
    (∀ (b : Buffer α) (e : α), b.data.length = b.capacity →
      (b.append e).data = b.data.drop 1 ++ [e]) ∧
    ((Buffer.empty C : Buffer α).appendAll es).data = es.drop (es.length - C) ∧
    ((Buffer.empty C : Buffer α).appendAll es).data.length = C := by
  have hdata : ∀ es' : List α, ((Buffer.empty C : Buffer α).appendAll es').data
      = es'.drop (es'.length - C) := by
    intro es'
    have h := Buffer.appendAll_data hC es' [] (by simp)
    simpa [Buffer.empty] using h
  refine ⟨?_, ?_, hdata es, ?_⟩
  · intro es'
    rw [hdata es', List.length_drop]
    omega
  · intro b e hfull
    simp [Buffer.append, hfull]
  · rw [hdata es, List.length_drop]
    omega

theorem C4_witness :
    0 < 3 ∧ 3 < List.length [10, 20, 30, 40] ∧
    ((Buffer.empty 3 : Buffer Nat).appendAll [10, 20, 30, 40]).data = [20, 30, 40] ∧
    ((Buffer.empty 3 : Buffer Nat).appendAll [10, 20, 30, 40]).data.length = 3 := by
  have h := C4_buffer_bounded_fifo 3 [10, 20, 30, 40] (by decide) (by decide)
  exact ⟨by decide, by decide, h.2.2.1, h.2.2.2⟩

/-- Claim C5 (modelled from the spec): `recent(k)` is a read-only total
function returning the `min(k, len)` most recently appended events in
insertion order — a suffix of the buffer — all of them when `k ≥ len` and
none when `k ≤ 0`. -/
theorem C5_recent_returns_recent_suffix {α : Type} (b : Buffer α) (k : Int) :
    (Buffer.recent b k).length = min k.toNat b.data.length ∧
    Buffer.recent b k <:+ b.data ∧
    (k ≤ 0 → Buffer.recent b k = []) ∧
    ((b.data.length : Int) ≤ k → Buffer.recent b k = b.data) := by
  unfold Buffer.recent
  by_cases hk : k ≤ 0
  · rw [if_pos hk]
    refine ⟨?_, List.nil_suffix, fun _ => rfl, fun hlen => ?_⟩
    · have h0 : k.toNat = 0 := Int.toNat_of_nonpos hk
      simp [h0]
    · have h0 : b.data.length = 0 := by omega
      exact ((List.length_eq_zero).mp h0).symm
  · rw [if_neg hk]
    refine ⟨?_, List.drop_suffix _ _, fun hcontra => absurd hcontra hk, fun hlen => ?_⟩
    · rw [List.length_drop]
      omega
    · have h0 : b.data.length - k.toNat = 0 := by omega
      rw [h0, List.drop_zero]

theorem C5_witness :
    (Buffer.recent (⟨3, [10, 20, 30]⟩ : Buffer Nat) 2).length = min (Int.toNat 2) 3 ∧
    Buffer.recent (⟨3, [10, 20, 30]⟩ : Buffer Nat) (-1) = [] ∧
    Buffer.recent (⟨3, [10, 20, 30]⟩ : Buffer Nat) 5 = [10, 20, 30] := by
  refine ⟨?_, ?_, ?_⟩
  · exact (C5_recent_returns_recent_suffix (⟨3, [10, 20, 30]⟩ : Buffer Nat) 2).1
  · exact (C5_recent_returns_recent_suffix (⟨3, [10, 20, 30]⟩ : Buffer Nat) (-1)).2.2.1
      (by decide)
  · exact (C5_recent_returns_recent_suffix (⟨3, [10, 20, 30]⟩ : Buffer Nat) 5).2.2.2
      (by decide)

end CTI
